import Mathlib

/-!
Shallow embedding of the change-to-service restart dispatcher in
`watch-restart.py`: the ignore filter, the ordered path-to-service
classification table, the debounced restart routine, and the filesystem
event callbacks.  Python strings are Lean `String`s, `time.time()`
timestamps are rationals, the `last_restart` dict is an insertion-ordered
association list, and the outcome of `subprocess.run` (a completed process
or a raised exception) is passed in explicitly so that the handler's
behaviour on every external outcome can be stated.
-/

namespace WatchRestart

/-- Boolean test that the first character list is a prefix of the second
(models Python `str.startswith` on the underlying characters). -/
def listPre : List Char → List Char → Bool
  | [], _ => true
  | _ :: _, [] => false
  | a :: as, b :: bs => a = b && listPre as bs

/-- Boolean test that `needle` occurs contiguously inside the second list
(models the Python `in` substring operator). -/
def listInf (needle : List Char) : List Char → Bool
  | [] => needle.isEmpty
  | h :: t => listPre needle (h :: t) || listInf needle t

/-- Python `rel_path.startswith(pat)`. -/
def strPre (pat s : String) : Bool := listPre pat.data s.data

/-- Python `needle in hay` on strings. -/
def strContains (hay needle : String) : Bool := listInf needle.data hay.data

/-- Python `s.rstrip("/")`: remove every trailing slash. -/
def rstripSlash (s : String) : String :=
  String.mk ((s.data.reverse.dropWhile (fun c => c = '/')).reverse)

/-- Configuration constant `WATCH_DIR = Path("/home/liveStream")`. -/
def WATCH_DIR : String := "/home/liveStream"

/-- Configuration constant `DEBOUNCE_SECONDS = 2`. -/
def DEBOUNCE_SECONDS : ℚ := 2

/-- The `SERVICE_MAP` dict, as the insertion-ordered list of its items;
`None` values become `none`. -/
def SERVICE_MAP : List (String × Option String) :=
  [("animation-server/", some "animation"),
   ("frontend/", some "livestream"),
   ("server.js", some "livestream"),
   ("voices.js", some "livestream"),
   ("tools/", none)]

/-- The `IGNORE_PATTERNS` list. -/
def IGNORE_PATTERNS : List String :=
  ["node_modules", ".git", "streams", "exported-layers", "temp",
   "__pycache__", ".pyc", ".log", ".ts", ".m3u8"]

/-- The text of the ValueError raised by `Path(p).relative_to(root)` when
`p` is not inside `root`. -/
def relErrMsg (root p : String) : String :=
  p ++ " is not in the subpath of " ++ root

/-- Models `str(Path(p).relative_to(root))` for already-normalized absolute
paths: the relative part on success, and a raised `ValueError` (the
`.error` branch) when `p` is not the root and not below it. -/
def relative_to (root p : String) : Except String String :=
  if p = root then Except.ok "."
  else if strPre (root ++ "/") p then Except.ok (p.drop (root ++ "/").length)
  else Except.error (relErrMsg root p)

/-- Method `RestartHandler.should_ignore`: some ignore pattern occurs in the
string form of the path. -/
def should_ignore (path : String) : Bool :=
  IGNORE_PATTERNS.any (fun pat => strContains path pat)

/-- The per-rule match test of `RestartHandler.get_service`:
`rel_path.startswith(pattern) or rel_path == pattern.rstrip("/")`. -/
def ruleMatches (rel pat : String) : Bool :=
  strPre pat rel || rel = rstripSlash pat

/-- The `for pattern, service in SERVICE_MAP.items()` scan of
`get_service`: first matching rule returns its (possibly `None`) service,
fall-through returns `None`. -/
def scanRules : List (String × Option String) → String → Option String
  | [], _ => none
  | (pat, svc) :: rest, rel =>
      if ruleMatches rel pat then svc else scanRules rest rel

/-- `RestartHandler.get_service`, generalized over the rule table it scans;
the `relative_to` call can raise, which propagates. -/
def get_service_with (rules : List (String × Option String)) (path : String) :
    Except String (Option String) :=
  (relative_to WATCH_DIR path).map (fun rel => scanRules rules rel)

/-- `RestartHandler.get_service` with the configured `SERVICE_MAP`. -/
def get_service (path : String) : Except String (Option String) :=
  get_service_with SERVICE_MAP path

/-- The mutable state of a `RestartHandler`: the `last_restart` dict from
service name to the timestamp of its last non-skipped restart. -/
structure HandlerState where
  last_restart : List (String × ℚ)

/-- Dict lookup: `d[k]` as an `Option`. -/
def dictFind (d : List (String × ℚ)) (k : String) : Option ℚ :=
  (d.find? (fun p => p.1 = k)).map Prod.snd

/-- Dict assignment `d[k] = v`: overwrite in place, or append when absent
(Python dict insertion-order semantics). -/
def dictInsert (d : List (String × ℚ)) (k : String) (v : ℚ) :
    List (String × ℚ) :=
  match d with
  | [] => [(k, v)]
  | (k0, v0) :: rest =>
      if k0 = k then (k, v) :: rest else (k0, v0) :: dictInsert rest k v

/-- Result fields of a completed `subprocess.run` call. -/
structure RunResult where
  returncode : Int
  stdout : String
  stderr : String

/-- Outcome of attempting the `subprocess.run(["systemctl", "restart", s])`
call: the process completed, or the invocation itself raised. -/
inductive RunOutcome where
  | completed (r : RunResult)
  | raised (msg : String)

/-- Observable result of one handler step: the updated state, the list of
subprocess invocations issued (as argv lists), and the printed log lines. -/
structure StepOut where
  state : HandlerState
  calls : List (List String)
  logs : List String

/-- The `'='*50` separator line. -/
def sepLine : String := String.mk (List.replicate 50 '=')

/-- The three banner lines printed before a restart attempt. -/
def bannerLogs (service : String) : List String :=
  ["\n" ++ sepLine, "Restarting " ++ service ++ "...", sepLine]

/-- The body of `restart_service` past the debounce guard: record the
timestamp, print the banner, issue the restart, and report; a non-zero exit
and a raised exception are both caught and reported by a log line. -/
def doRestart (st : HandlerState) (service : String) (now : ℚ)
    (world : RunOutcome) : StepOut :=
  let st2 : HandlerState := ⟨dictInsert st.last_restart service now⟩
  let call : List String := ["systemctl", "restart", service]
  match world with
  | RunOutcome.completed r =>
      if r.returncode = 0 then
        ⟨st2, [call], bannerLogs service ++
          ["✓ " ++ service ++ " restarted successfully"]⟩
      else
        ⟨st2, [call], bannerLogs service ++
          ["✗ Failed to restart " ++ service ++ ": " ++ r.stderr]⟩
  | RunOutcome.raised e =>
      ⟨st2, [call], bannerLogs service ++
        ["✗ Error restarting " ++ service ++ ": " ++ e]⟩

/-- Method `RestartHandler.restart_service`: skip silently when the same
service was restarted less than `DEBOUNCE_SECONDS` ago, otherwise run
`doRestart`. -/
def restart_service (st : HandlerState) (service : String) (now : ℚ)
    (world : RunOutcome) : StepOut :=
  match dictFind st.last_restart service with
  | some t =>
      if now - t < DEBOUNCE_SECONDS then ⟨st, [], []⟩
      else doRestart st service now world
  | none => doRestart st service now world

/-- The debounce guard of `restart_service` passes: the service is absent
from `last_restart`, or its recorded time is not within the window. -/
def passesDebounce (st : HandlerState) (service : String) (now : ℚ) : Prop :=
  ∀ t, dictFind st.last_restart service = some t →
    ¬ (now - t < DEBOUNCE_SECONDS)

/-- A watchdog filesystem event: the directory flag and `src_path`. -/
structure Event where
  is_directory : Bool
  src_path : String

/-- Method `RestartHandler.on_modified`, generalized over the rule table:
discard directory events, discard ignored paths, classify, and on a truthy
service print the changed path and call `restart_service`.  A `ValueError`
from `relative_to` propagates as `.error`. -/
def on_modified_with (rules : List (String × Option String))
    (st : HandlerState) (e : Event) (now : ℚ) (world : RunOutcome) :
    Except String StepOut :=
  if e.is_directory then Except.ok ⟨st, [], []⟩
  else if should_ignore e.src_path then Except.ok ⟨st, [], []⟩
  else
    match get_service_with rules e.src_path with
    | Except.error m => Except.error m
    | Except.ok none => Except.ok ⟨st, [], []⟩
    | Except.ok (some service) =>
        if service = "" then Except.ok ⟨st, [], []⟩
        else
          match relative_to WATCH_DIR e.src_path with
          | Except.error m => Except.error m
          | Except.ok rel =>
              let r := restart_service st service now world
              Except.ok ⟨r.state, r.calls, ("Changed: " ++ rel) :: r.logs⟩

/-- Method `RestartHandler.on_modified` with the configured rules. -/
def on_modified (st : HandlerState) (e : Event) (now : ℚ)
    (world : RunOutcome) : Except String StepOut :=
  on_modified_with SERVICE_MAP st e now world

/-- Method `RestartHandler.on_created`: delegates to `on_modified`. -/
def on_created (st : HandlerState) (e : Event) (now : ℚ)
    (world : RunOutcome) : Except String StepOut :=
  on_modified st e now world

/-- Whether an `Except` result is a normal return (no raised exception). -/
def isOkB {α β : Type} : Except α β → Bool
  | Except.ok _ => true
  | Except.error _ => false

theorem dictFind_insert_self (d : List (String × ℚ)) (k : String) (v : ℚ) :
    dictFind (dictInsert d k v) k = some v := by
  induction d with
  | nil => simp [dictInsert, dictFind]
  | cons p rest ih =>
      obtain ⟨k0, v0⟩ := p
      by_cases h : k0 = k
      · simp [dictInsert, h, dictFind]
      · simpa [dictInsert, h, dictFind] using ih

theorem dictFind_insert_other (d : List (String × ℚ)) (k k' : String) (v : ℚ)
    (h : k' ≠ k) : dictFind (dictInsert d k v) k' = dictFind d k' := by
  induction d with
  | nil => simp [dictInsert, dictFind, Ne.symm h]
  | cons p rest ih =>
      obtain ⟨k0, v0⟩ := p
      by_cases h0 : k0 = k
      · subst h0
        simp [dictInsert, dictFind, Ne.symm h]
      · by_cases h1 : k0 = k'
        · subst h1
          simp [dictInsert, h0, dictFind]
        · simpa [dictInsert, h0, dictFind, h1] using ih

theorem doRestart_state (st : HandlerState) (s : String) (now : ℚ)
    (w : RunOutcome) :
    (doRestart st s now w).state = ⟨dictInsert st.last_restart s now⟩ := by
  cases w with
  | completed r => by_cases h : r.returncode = 0 <;> simp [doRestart, h]
  | raised e => rfl

theorem doRestart_calls (st : HandlerState) (s : String) (now : ℚ)
    (w : RunOutcome) :
    (doRestart st s now w).calls = [["systemctl", "restart", s]] := by
  cases w with
  | completed r => by_cases h : r.returncode = 0 <;> simp [doRestart, h]
  | raised e => rfl

theorem doRestart_logs_indep (st st' : HandlerState) (s : String) (now : ℚ)
    (w : RunOutcome) :
    (doRestart st s now w).logs = (doRestart st' s now w).logs := by
  cases w with
  | completed r => by_cases h : r.returncode = 0 <;> simp [doRestart, h]
  | raised e => rfl

theorem restart_passes (st : HandlerState) (s : String) (now : ℚ)
    (w : RunOutcome) (h : passesDebounce st s now) :
    restart_service st s now w = doRestart st s now w := by
  unfold restart_service
  cases hf : dictFind st.last_restart s with
  | none => rfl
  | some t => simp [h t hf]

theorem restart_skips (st : HandlerState) (s : String) (now : ℚ)
    (w : RunOutcome) (t : ℚ) (hf : dictFind st.last_restart s = some t)
    (hlt : now - t < DEBOUNCE_SECONDS) :
    restart_service st s now w = ⟨st, [], []⟩ := by
  unfold restart_service
  rw [hf]
  simp [hlt]

theorem qlt_one_zero : (1 : ℚ) - 0 < 2 := by norm_num

theorem qgt_three_zero : (3 : ℚ) - 0 > 2 := by norm_num

theorem emptyPasses (s : String) (now : ℚ) :
    passesDebounce ⟨[]⟩ s now := by
  intro t ht
  simp [dictFind] at ht

/-- C1: when a first `restart_service` call for service `s` passes the
debounce guard and a second call for `s` arrives less than
`DEBOUNCE_SECONDS` later, exactly one subprocess restart invocation is
made in total: the first call issues it, and the second call is skipped
with no log output, no subprocess call, and no state change. -/
theorem c1_debounce_skip (st : HandlerState) (s : String) (t1 t2 : ℚ)
    (w1 w2 : RunOutcome) (h1 : passesDebounce st s t1)
    (h2 : t2 - t1 < DEBOUNCE_SECONDS) :
    (restart_service st s t1 w1).calls.length = 1 ∧
    restart_service (restart_service st s t1 w1).state s t2 w2
      = ⟨(restart_service st s t1 w1).state, [], []⟩ := by
  have hr1 : restart_service st s t1 w1 = doRestart st s t1 w1 :=
    restart_passes st s t1 w1 h1
  constructor
  · rw [hr1, doRestart_calls]
    rfl
  · apply restart_skips _ _ _ _ t1 _ h2
    rw [hr1, doRestart_state]
    exact dictFind_insert_self _ _ _

/-- Witness for C1 at a concrete input: service restarted at time 0,
second call at time 1. -/
theorem c1_debounce_skip_witness :
    (restart_service ⟨[]⟩ "livestream" 0
      (RunOutcome.completed ⟨0, "", ""⟩)).calls.length = 1 ∧
    restart_service (restart_service ⟨[]⟩ "livestream" 0
        (RunOutcome.completed ⟨0, "", ""⟩)).state "livestream" 1
        (RunOutcome.completed ⟨0, "", ""⟩)
      = ⟨(restart_service ⟨[]⟩ "livestream" 0
          (RunOutcome.completed ⟨0, "", ""⟩)).state, [], []⟩ :=
  c1_debounce_skip ⟨[]⟩ "livestream" 0 1
    (RunOutcome.completed ⟨0, "", ""⟩) (RunOutcome.completed ⟨0, "", ""⟩)
    (emptyPasses "livestream" 0) qlt_one_zero

/-- C2: when `restart_service` passes the debounce guard, the
`last_restart` entry for the service is set to the current time, and it
stays set to that time for every outcome of the subprocess invocation,
including a non-zero exit status and a raised exception (no rollback on
error). -/
theorem c2_timestamp_persists (st : HandlerState) (s : String) (now : ℚ)
    (w : RunOutcome) (h : passesDebounce st s now) :
    dictFind (restart_service st s now w).state.last_restart s = some now := by
  rw [restart_passes st s now w h, doRestart_state]
  exact dictFind_insert_self _ _ _

/-- Witness for C2 at a concrete input: the invocation raises, yet the
timestamp remains recorded. -/
theorem c2_timestamp_persists_witness :
    dictFind (restart_service ⟨[]⟩ "livestream" 0
      (RunOutcome.raised "FileNotFoundError")).state.last_restart "livestream"
      = some 0 :=
  c2_timestamp_persists ⟨[]⟩ "livestream" 0
    (RunOutcome.raised "FileNotFoundError") (emptyPasses "livestream" 0)

/-- C3: the `get_service` scan examines the rule table in declared order
and returns the outcome of the first rule whose pattern is a string prefix
of the relative path or whose pattern with trailing separators stripped
equals the path exactly (and `none` when no rule matches); in particular
the earlier-declared of two matching rules wins, as in the spec's
`frontend/sub/x.js` example. -/
theorem c3_first_match_wins :
    (∀ (rules : List (String × Option String)) (rel : String),
      scanRules rules rel
        = Option.join ((rules.find? (fun r => ruleMatches rel r.1)).map
            Prod.snd)) ∧
    scanRules [("frontend/", some "livestream"), ("frontend/sub/", some "other")]
      "frontend/sub/x.js" = some "livestream" := by
  constructor
  · intro rules rel
    induction rules with
    | nil => rfl
    | cons r rest ih =>
        obtain ⟨pat, svc⟩ := r
        by_cases h : ruleMatches rel pat
        · simp [scanRules, h, List.find?]
        · simp [scanRules, h, List.find?, ih]
  · rfl

/-- C5: two `restart_service` calls for the same service separated by more
than `DEBOUNCE_SECONDS` both pass the debounce guard and each issues one
subprocess restart invocation. -/
theorem c5_debounce_expiry (st : HandlerState) (s : String) (t1 t2 : ℚ)
    (w1 w2 : RunOutcome) (h1 : passesDebounce st s t1)
    (h2 : t2 - t1 > DEBOUNCE_SECONDS) :
    (restart_service st s t1 w1).calls.length = 1 ∧
    (restart_service (restart_service st s t1 w1).state s t2 w2).calls.length
      = 1 := by
  have hr1 : restart_service st s t1 w1 = doRestart st s t1 w1 :=
    restart_passes st s t1 w1 h1
  have hfind : dictFind (restart_service st s t1 w1).state.last_restart s
      = some t1 := by
    rw [hr1, doRestart_state]
    exact dictFind_insert_self _ _ _
  have hpass2 : passesDebounce (restart_service st s t1 w1).state s t2 := by
    intro t ht
    rw [hfind] at ht
    injection ht with ht
    subst ht
    exact lt_asymm h2
  constructor
  · rw [hr1, doRestart_calls]
    rfl
  · rw [restart_passes _ _ _ _ hpass2, doRestart_calls]
    rfl

/-- Witness for C5 at a concrete input: restarts at times 0 and 3. -/
theorem c5_debounce_expiry_witness :
    (restart_service ⟨[]⟩ "animation" 0
      (RunOutcome.completed ⟨0, "", ""⟩)).calls.length = 1 ∧
    (restart_service (restart_service ⟨[]⟩ "animation" 0
        (RunOutcome.completed ⟨0, "", ""⟩)).state "animation" 3
        (RunOutcome.completed ⟨0, "", ""⟩)).calls.length = 1 :=
  c5_debounce_expiry ⟨[]⟩ "animation" 0 3
    (RunOutcome.completed ⟨0, "", ""⟩) (RunOutcome.completed ⟨0, "", ""⟩)
    (emptyPasses "animation" 0) qgt_three_zero

theorem listInf_append_left (n pre h : List Char) (hh : listInf n h = true) :
    listInf n (pre ++ h) = true := by
  induction pre with
  | nil => simpa using hh
  | cons c cs ih => simp [listInf, ih]

theorem strContains_append_left (pre s pat : String)
    (h : strContains s pat = true) :
    strContains (pre ++ s) pat = true := by
  unfold strContains at h ⊢
  rw [String.data_append]
  exact listInf_append_left _ _ _ h

theorem should_ignore_append_left (pre s : String)
    (h : should_ignore s = true) : should_ignore (pre ++ s) = true := by
  unfold should_ignore at h ⊢
  rw [List.any_eq_true] at h ⊢
  obtain ⟨pat, hmem, hc⟩ := h
  exact ⟨pat, hmem, strContains_append_left pre s pat hc⟩

/-- C4: a file event whose path is `WATCH_DIR` plus a relative path
containing any ignore pattern is suppressed before classification: for
every rule table, `on_modified` returns with no state change, no log line,
and no subprocess call. -/
theorem c4_ignore_suppresses (rules : List (String × Option String))
    (st : HandlerState) (now : ℚ) (w : RunOutcome) (rel : String)
    (h : should_ignore rel = true) :
    on_modified_with rules st ⟨false, WATCH_DIR ++ "/" ++ rel⟩ now w
      = Except.ok ⟨st, [], []⟩ := by
  have habs : should_ignore (WATCH_DIR ++ "/" ++ rel) = true :=
    should_ignore_append_left (WATCH_DIR ++ "/") rel h
  simp [on_modified_with, habs]

/-- Witness for C4 at a concrete input: `frontend/app.log` contains the
ignore pattern `.log`, and the rule table would otherwise map it to
`livestream`. -/
theorem c4_ignore_suppresses_witness :
    on_modified_with SERVICE_MAP ⟨[]⟩ ⟨false, WATCH_DIR ++ "/" ++ "frontend/app.log"⟩
      0 (RunOutcome.completed ⟨0, "", ""⟩) = Except.ok ⟨⟨[]⟩, [], []⟩ :=
  c4_ignore_suppresses SERVICE_MAP ⟨[]⟩ 0
    (RunOutcome.completed ⟨0, "", ""⟩) "frontend/app.log" (by rfl)

theorem restart_calls_congr (st st' : HandlerState) (s : String) (now : ℚ)
    (w : RunOutcome)
    (hagree : dictFind st'.last_restart s = dictFind st.last_restart s) :
    (restart_service st' s now w).calls = (restart_service st s now w).calls := by
  unfold restart_service
  rw [hagree]
  cases dictFind st.last_restart s with
  | none => rw [doRestart_calls, doRestart_calls]
  | some t =>
      by_cases h : now - t < DEBOUNCE_SECONDS
      · simp [h]
      · simp [h, doRestart_calls st, doRestart_calls st']

theorem restart_logs_congr (st st' : HandlerState) (s : String) (now : ℚ)
    (w : RunOutcome)
    (hagree : dictFind st'.last_restart s = dictFind st.last_restart s) :
    (restart_service st' s now w).logs = (restart_service st s now w).logs := by
  unfold restart_service
  rw [hagree]
  cases dictFind st.last_restart s with
  | none => exact doRestart_logs_indep st' st s now w
  | some t =>
      by_cases h : now - t < DEBOUNCE_SECONDS
      · simp [h]
      · simp [h]
        exact doRestart_logs_indep st' st s now w

/-- C6: the debounce state is per-service.  A `restart_service` call for
`s1` leaves the `last_restart` entry of any other service `s2` unchanged,
its calls and logs are the same from any state that agrees with `st` on
`s1` alone (so the entry of `s2` is never read), and two calls for
distinct services at the same instant both issue their subprocess
invocation. -/
theorem c6_per_service_independence (st st' : HandlerState) (s1 s2 : String)
    (now : ℚ) (w1 w2 : RunOutcome) (hne : s1 ≠ s2)
    (hagree : dictFind st'.last_restart s1 = dictFind st.last_restart s1)
    (h1 : passesDebounce st s1 now) (h2 : passesDebounce st s2 now) :
    dictFind (restart_service st s1 now w1).state.last_restart s2
      = dictFind st.last_restart s2 ∧
    (restart_service st' s1 now w1).calls
      = (restart_service st s1 now w1).calls ∧
    (restart_service st' s1 now w1).logs
      = (restart_service st s1 now w1).logs ∧
    (restart_service st s1 now w1).calls.length = 1 ∧
    (restart_service (restart_service st s1 now w1).state s2 now w2).calls.length
      = 1 := by
  have hframe : dictFind (restart_service st s1 now w1).state.last_restart s2
      = dictFind st.last_restart s2 := by
    rw [restart_passes st s1 now w1 h1, doRestart_state]
    exact dictFind_insert_other _ _ _ _ (Ne.symm hne)
  have hpass2 : passesDebounce (restart_service st s1 now w1).state s2 now := by
    intro t ht
    rw [hframe] at ht
    exact h2 t ht
  refine ⟨hframe, restart_calls_congr st st' s1 now w1 hagree,
    restart_logs_congr st st' s1 now w1 hagree, ?_, ?_⟩
  · rw [restart_passes st s1 now w1 h1, doRestart_calls]
    rfl
  · rw [restart_passes _ _ _ _ hpass2, doRestart_calls]
    rfl

/-- Witness for C6 at a concrete input: `animation` and `livestream` at the
same instant, with an alternative state that differs only at
`livestream`. -/
theorem c6_per_service_independence_witness :
    dictFind (restart_service ⟨[]⟩ "animation" 0
        (RunOutcome.completed ⟨0, "", ""⟩)).state.last_restart "livestream"
      = dictFind (HandlerState.mk []).last_restart "livestream" ∧
    (restart_service ⟨[("livestream", 100)]⟩ "animation" 0
        (RunOutcome.completed ⟨0, "", ""⟩)).calls
      = (restart_service ⟨[]⟩ "animation" 0
        (RunOutcome.completed ⟨0, "", ""⟩)).calls ∧
    (restart_service ⟨[("livestream", 100)]⟩ "animation" 0
        (RunOutcome.completed ⟨0, "", ""⟩)).logs
      = (restart_service ⟨[]⟩ "animation" 0
        (RunOutcome.completed ⟨0, "", ""⟩)).logs ∧
    (restart_service ⟨[]⟩ "animation" 0
        (RunOutcome.completed ⟨0, "", ""⟩)).calls.length = 1 ∧
    (restart_service (restart_service ⟨[]⟩ "animation" 0
        (RunOutcome.completed ⟨0, "", ""⟩)).state "livestream" 0
        (RunOutcome.completed ⟨0, "", ""⟩)).calls.length = 1 :=
  c6_per_service_independence ⟨[]⟩ ⟨[("livestream", 100)]⟩ "animation"
    "livestream" 0 (RunOutcome.completed ⟨0, "", ""⟩)
    (RunOutcome.completed ⟨0, "", ""⟩) (by decide) (by rfl)
    (emptyPasses "animation" 0) (emptyPasses "livestream" 0)

theorem on_modified_isOk_world_indep (rules : List (String × Option String))
    (st : HandlerState) (e : Event) (now : ℚ) (w w' : RunOutcome) :
    isOkB (on_modified_with rules st e now w)
      = isOkB (on_modified_with rules st e now w') := by
  obtain ⟨d, p⟩ := e
  cases d
  · by_cases hi : should_ignore p = true
    · simp [on_modified_with, hi]
    · simp only [on_modified_with, Bool.false_eq_true, if_false, hi]
      cases hg : get_service_with rules p with
      | error m => rfl
      | ok o =>
          cases o with
          | none => rfl
          | some service =>
              by_cases hs : service = ""
              · simp [hs]
              · simp only [hs, if_false]
                cases hr : relative_to WATCH_DIR p with
                | error m => rfl
                | ok rel => rfl
  · simp [on_modified_with]

/-- C7: past the debounce guard, a completed restart command with non-zero
exit status and a raised invocation exception are both caught inside
`restart_service`: each produces the banner plus exactly one failure log
line, the resulting state and issued calls are identical in the two cases,
and the event handler returns normally (the normal-return flag of
`on_modified` does not depend on the subprocess outcome, so no exception
reaches the event loop). -/
theorem c7_failures_caught (st : HandlerState) (s : String) (now : ℚ)
    (rc : Int) (sout serr emsg : String)
    (rules : List (String × Option String)) (e : Event) (w w' : RunOutcome)
    (h : passesDebounce st s now) (hrc : rc ≠ 0) :
    (restart_service st s now (RunOutcome.completed ⟨rc, sout, serr⟩)).logs
      = bannerLogs s ++ ["✗ Failed to restart " ++ s ++ ": " ++ serr] ∧
    (restart_service st s now (RunOutcome.raised emsg)).logs
      = bannerLogs s ++ ["✗ Error restarting " ++ s ++ ": " ++ emsg] ∧
    (restart_service st s now (RunOutcome.completed ⟨rc, sout, serr⟩)).state
      = (restart_service st s now (RunOutcome.raised emsg)).state ∧
    (restart_service st s now (RunOutcome.completed ⟨rc, sout, serr⟩)).calls
      = (restart_service st s now (RunOutcome.raised emsg)).calls ∧
    isOkB (on_modified_with rules st e now w)
      = isOkB (on_modified_with rules st e now w') := by
  rw [restart_passes st s now _ h, restart_passes st s now _ h]
  refine ⟨?_, rfl, ?_, ?_, on_modified_isOk_world_indep rules st e now w w'⟩
  · simp [doRestart, hrc]
  · rw [doRestart_state, doRestart_state]
  · rw [doRestart_calls, doRestart_calls]

/-- Witness for C7 at a concrete input: exit code 1 with stderr
`unit not found`, and a raised invocation error, for `livestream`. -/
theorem c7_failures_caught_witness :
    (restart_service ⟨[]⟩ "livestream" 0
        (RunOutcome.completed ⟨1, "", "unit not found"⟩)).logs
      = bannerLogs "livestream"
        ++ ["✗ Failed to restart " ++ "livestream" ++ ": " ++ "unit not found"] ∧
    (restart_service ⟨[]⟩ "livestream" 0
        (RunOutcome.raised "systemctl not found")).logs
      = bannerLogs "livestream"
        ++ ["✗ Error restarting " ++ "livestream" ++ ": " ++ "systemctl not found"] ∧
    (restart_service ⟨[]⟩ "livestream" 0
        (RunOutcome.completed ⟨1, "", "unit not found"⟩)).state
      = (restart_service ⟨[]⟩ "livestream" 0
        (RunOutcome.raised "systemctl not found")).state ∧
    (restart_service ⟨[]⟩ "livestream" 0
        (RunOutcome.completed ⟨1, "", "unit not found"⟩)).calls
      = (restart_service ⟨[]⟩ "livestream" 0
        (RunOutcome.raised "systemctl not found")).calls ∧
    isOkB (on_modified_with SERVICE_MAP ⟨[]⟩
        ⟨false, "/home/liveStream/server.js"⟩ 0
        (RunOutcome.raised "systemctl not found"))
      = isOkB (on_modified_with SERVICE_MAP ⟨[]⟩
        ⟨false, "/home/liveStream/server.js"⟩ 0
        (RunOutcome.completed ⟨0, "", ""⟩)) :=
  c7_failures_caught ⟨[]⟩ "livestream" 0 1 "" "unit not found"
    "systemctl not found" SERVICE_MAP ⟨false, "/home/liveStream/server.js"⟩
    (RunOutcome.raised "systemctl not found")
    (RunOutcome.completed ⟨0, "", ""⟩)
    (emptyPasses "livestream" 0) (by decide)

/-- C8 is false as stated: for the concrete non-descendant path
`/etc/passwd` (matched by no ignore pattern), classification does not
return the no-match outcome without raising; the `relative_to` call inside
`get_service` raises `ValueError`, modelled as the `.error` branch. -/
theorem c8_counterexample :
    get_service "/etc/passwd"
      = Except.error (relErrMsg WATCH_DIR "/etc/passwd") ∧
    get_service "/etc/passwd" ≠ Except.ok none := by
  refine ⟨rfl, ?_⟩
  rw [show get_service "/etc/passwd"
      = Except.error (relErrMsg WATCH_DIR "/etc/passwd") from rfl]
  simp

/-- C8 amended: on an absolute path that is not `WATCH_DIR` and not below
it (and not caught by the ignore filter), `get_service` raises a
`ValueError` instead of returning the no-match outcome, and `on_modified`
propagates that exception, performing no restart and emitting no log. -/
theorem c8_amended (st : HandlerState) (now : ℚ) (w : RunOutcome)
    (p : String) (hig : should_ignore p = false) (hroot : p ≠ WATCH_DIR)
    (hpre : strPre (WATCH_DIR ++ "/") p = false) :
    get_service p = Except.error (relErrMsg WATCH_DIR p) ∧
    on_modified st ⟨false, p⟩ now w
      = Except.error (relErrMsg WATCH_DIR p) := by
  have hrel : relative_to WATCH_DIR p = Except.error (relErrMsg WATCH_DIR p) := by
    unfold relative_to
    simp [hroot, hpre]
  have hg : get_service_with SERVICE_MAP p
      = Except.error (relErrMsg WATCH_DIR p) := by
    unfold get_service_with
    rw [hrel]
    rfl
  constructor
  · exact hg
  · unfold on_modified on_modified_with
    simp [hig, hg]

/-- Witness for the amended C8 at the concrete input `/etc/passwd`. -/
theorem c8_amended_witness :
    get_service "/etc/passwd"
      = Except.error (relErrMsg WATCH_DIR "/etc/passwd") ∧
    on_modified ⟨[]⟩ ⟨false, "/etc/passwd"⟩ 0
        (RunOutcome.completed ⟨0, "", ""⟩)
      = Except.error (relErrMsg WATCH_DIR "/etc/passwd") :=
  c8_amended ⟨[]⟩ 0 (RunOutcome.completed ⟨0, "", ""⟩) "/etc/passwd"
    (by rfl) (by decide) (by rfl)

/-- C9: `on_created` delegates to `on_modified`: for every handler state,
event, time, and subprocess outcome the two callbacks return identical
results — the same classification, the same logs, the same calls, and the
same resulting state. -/
theorem c9_on_created_eq_on_modified (st : HandlerState) (e : Event)
    (now : ℚ) (w : RunOutcome) :
    on_created st e now w = on_modified st e now w := rfl

/-- C10: a path whose classification scan yields `none` — whether because
the first matching rule carries no service (the `tools/` rule) or because
no rule matches at all — makes `get_service` return the same value
`Except.ok none`, and `on_modified` behaves identically in both cases: no
log line, no call, no state change.  The two concrete cases
`tools/build.py` (suppressing match) and `README.md` (no match) are
observationally equal. -/
theorem c10_none_cases_indistinguishable (st : HandlerState) (now : ℚ)
    (w : RunOutcome) (p rel : String)
    (hrel : relative_to WATCH_DIR p = Except.ok rel)
    (hig : should_ignore p = false)
    (hscan : scanRules SERVICE_MAP rel = none) :
    (get_service p = Except.ok none ∧
     on_modified st ⟨false, p⟩ now w = Except.ok ⟨st, [], []⟩) ∧
    get_service "/home/liveStream/tools/build.py" = Except.ok none ∧
    get_service "/home/liveStream/README.md" = Except.ok none ∧
    on_modified st ⟨false, "/home/liveStream/tools/build.py"⟩ now w
      = on_modified st ⟨false, "/home/liveStream/README.md"⟩ now w := by
  have key : ∀ q, should_ignore q = false →
      get_service_with SERVICE_MAP q = Except.ok none →
      on_modified st ⟨false, q⟩ now w = Except.ok ⟨st, [], []⟩ := by
    intro q h1 h2
    unfold on_modified on_modified_with
    simp [h1, h2]
  have hg : get_service_with SERVICE_MAP p = Except.ok none := by
    unfold get_service_with
    rw [hrel]
    show Except.ok (scanRules SERVICE_MAP rel) = Except.ok none
    rw [hscan]
  refine ⟨⟨hg, key p hig hg⟩, rfl, rfl, ?_⟩
  rw [key "/home/liveStream/tools/build.py" (by rfl) (by rfl),
    key "/home/liveStream/README.md" (by rfl) (by rfl)]

/-- Witness for C10 at the concrete input `tools/build.py`: the first
matching rule is `("tools/", None)`. -/
theorem c10_none_cases_indistinguishable_witness :
    (get_service "/home/liveStream/tools/build.py" = Except.ok none ∧
     on_modified ⟨[]⟩ ⟨false, "/home/liveStream/tools/build.py"⟩ 0
        (RunOutcome.completed ⟨0, "", ""⟩)
       = Except.ok ⟨⟨[]⟩, [], []⟩) ∧
    get_service "/home/liveStream/tools/build.py" = Except.ok none ∧
    get_service "/home/liveStream/README.md" = Except.ok none ∧
    on_modified ⟨[]⟩ ⟨false, "/home/liveStream/tools/build.py"⟩ 0
        (RunOutcome.completed ⟨0, "", ""⟩)
      = on_modified ⟨[]⟩ ⟨false, "/home/liveStream/README.md"⟩ 0
        (RunOutcome.completed ⟨0, "", ""⟩) :=
  c10_none_cases_indistinguishable ⟨[]⟩ 0
    (RunOutcome.completed ⟨0, "", ""⟩) "/home/liveStream/tools/build.py"
    "tools/build.py" (by rfl) (by rfl) (by rfl)

end WatchRestart
